import Mathlib

/-!
# Still-image capture coordinator (`AalImageCaptureControl`)

A shallow embedding of `src/aalimagecapturecontrol.cpp`.  The member variables of
the control and the state of the collaborators it talks to (camera service,
metadata writer, settings, video output) are fields of one record `State`.
Every member function is a pure function from a state to a new state together
with the list of externally visible effects it performs, in program order:
emitted Qt signals, hardware commands and calls into collaborators.

Conventions
* `int` is a 32-bit two's complement integer; `m_lastRequestId++` is modelled by
  `wrapInt32 (m_lastRequestId + 1)`.
* A `QString` is `Option String`: `none` is the null string (`QString()` and the
  result of `clear()`), `some ""` is empty but not null.
* A `StringFutureWatcher*` is a natural number (its address).  The address
  returned by `new StringFutureWatcher` is an argument of `saveJpeg`.
* `QMap`/`QHash` containers are association lists accessed only through
  `contains`, `value`, `insert` (which replaces) and `remove`.
-/

namespace AalImageCapture

/-! ## Basic types -/

/-- Address of a heap allocated `StringFutureWatcher`. -/
abbrev Handle := Nat

/-- A `QByteArray`: the bytes of the encoded image. -/
abbrev QByteArray := List Nat

/-- A `QString`; `none` is the null string. -/
abbrev QString := Option String

/-- Method `QString::isNull`. -/
def QString.isNull : QString → Bool
  | none => true
  | some _ => false

/-- Method `QString::isEmpty`: null strings and strings of length zero. -/
def QString.isEmpty : QString → Bool
  | none => true
  | some s => s.length == 0

/-- The `QVariant` values that occur in the metadata map. -/
inductive QVariant where
  | invalid
  | int (n : Int)
  | string (s : String)
  deriving DecidableEq, Repr

/-- Enumeration `QCameraImageCapture::Error`. -/
inductive CaptureError where
  | NoError
  | NotReadyError
  | ResourceError
  | OutOfSpaceError
  | NotSupportedFeatureError
  | FormatError
  deriving DecidableEq, Repr

/-- Smallest value of `int`. -/
def INT_MIN : Int := -2147483648

/-- Largest value of `int`. -/
def INT_MAX : Int := 2147483647

/-- Reduction of an integer into the range of a 32-bit `int`. -/
def wrapInt32 (x : Int) : Int := (x + 2147483648) % 4294967296 - 2147483648

/-! ## Association lists standing for `QMap` -/

/-- Method `QMap::contains`. -/
def QMap.contains {κ ν : Type} [DecidableEq κ] (m : List (κ × ν)) (k : κ) : Bool :=
  m.any (fun e => decide (e.1 = k))

/-- Method `QMap::value`, as an option. -/
def QMap.value {κ ν : Type} [DecidableEq κ] : List (κ × ν) → κ → Option ν
  | [], _ => none
  | e :: m, k => if e.1 = k then some e.2 else QMap.value m k

/-- Method `QMap::remove`: drops every entry stored under the key. -/
def QMap.remove {κ ν : Type} [DecidableEq κ] (m : List (κ × ν)) (k : κ) : List (κ × ν) :=
  m.filter (fun e => !decide (e.1 = k))

/-- Method `QMap::insert`: an existing entry for the key is replaced. -/
def QMap.insert {κ ν : Type} [DecidableEq κ] (m : List (κ × ν)) (k : κ) (v : ν) :
    List (κ × ν) :=
  (k, v) :: QMap.remove m k

/-- Method `QMap::keys`. -/
def QMap.keys {κ ν : Type} (m : List (κ × ν)) : List κ := m.map Prod.fst

/-! ## Effects -/

/-- Externally visible actions of the control, in the order they happen. -/
inductive Effect where
  /-- Signal `error(id, error, errorString)`. -/
  | error (id : Int) (kind : CaptureError) (msg : String)
  /-- Signal `readyForCaptureChanged(ready)`. -/
  | readyForCaptureChanged (ready : Bool)
  /-- Signal `imageExposed(id)`. -/
  | imageExposed (id : Int)
  /-- Signal `imageCaptured(id, preview)`. -/
  | imageCaptured (id : Int) (preview : Nat)
  /-- Signal `imageSaved(id, fileName)`. -/
  | imageSaved (id : Int) (fileName : QString)
  /-- Hardware command `android_camera_take_snapshot`. -/
  | takeSnapshot
  /-- Hardware command `android_camera_start_preview`. -/
  | startPreview
  /-- Call of `videoOutputControl()->createPreview()`. -/
  | createPreview
  /-- Call of `m_audioPlayer->play()`. -/
  | playSound
  /-- Call of `metadataWriterControl()->clearAllMetaData()`. -/
  | clearAllMetaData
  /-- Call `QtConcurrent::run(m_storageManager, &StorageManager::saveJpegImage, ...)`
  whose future is given to `watcher`. -/
  | saveDispatched (watcher : Handle) (data : QByteArray)
      (metadata : List (String × QVariant)) (fileName : QString)
  /-- Statement `delete watcher`. -/
  | deleteWatcher (watcher : Handle)
  deriving DecidableEq, Repr

/-! ## State -/

/-- Member variables of `AalImageCaptureControl` and the collaborator state
its member functions read or write. -/
structure State where
  /-- Member `m_lastRequestId`. -/
  m_lastRequestId : Int
  /-- Member `m_ready`. -/
  m_ready : Bool
  /-- Member `m_targetFileName`. -/
  m_targetFileName : QString
  /-- Member `m_pendingCaptureFile`. -/
  m_pendingCaptureFile : QString
  /-- Member `m_captureCancelled`. -/
  m_captureCancelled : Bool
  /-- Member `m_pendingSaveOperations`. -/
  m_pendingSaveOperations : List (Handle × Int)
  /-- Stored setting `playShutterSound` of `m_settings`, if any. -/
  playShutterSound : Option Bool
  /-- Whether `m_service->androidControl()` is non-null. -/
  androidControl : Bool
  /-- Service side ("a capture is currently consuming the pipeline"): a snapshot
  has been issued and the preview stream has not been restarted since. -/
  captureInProgress : Bool
  /-- Metadata store of `m_service->metadataWriterControl()`. -/
  metaData : List (String × QVariant)
  /-- Value of `metadataWriterControl()->correctedOrientation()`. -/
  correctedOrientation : Int
  /-- Value of `m_service->videoOutputControl()->preview()`. -/
  preview : Nat
  deriving DecidableEq, Repr

/-- Result of running a member function: the value returned (if the function
returns one), the state afterwards and the effects performed. -/
structure Outcome where
  ret : Option Int
  state : State
  effects : List Effect
  deriving DecidableEq, Repr

/-- The constructor (lines 39-50): counter `0`, not ready, no names, not
cancelled, no pending saves.  The collaborator state is given. -/
def construct (playShutterSound : Option Bool) (androidControl : Bool)
    (metaData : List (String × QVariant)) (correctedOrientation : Int) (preview : Nat) :
    State :=
  { m_lastRequestId := 0
    m_ready := false
    m_targetFileName := none
    m_pendingCaptureFile := none
    m_captureCancelled := false
    m_pendingSaveOperations := []
    playShutterSound := playShutterSound
    androidControl := androidControl
    captureInProgress := false
    metaData := metaData
    correctedOrientation := correctedOrientation
    preview := preview }

/-! ## Readiness and collaborators

`setReady` is a member function of the control.  The camera service, the
hardware layer and the metadata writer control are not in the source file; what
the control needs of them is modelled from the specification. -/

/-- Member function `AalImageCaptureControl::setReady` (lines 133-139). -/
def setReady (s : State) (ready : Bool) : State × List Effect :=
  if s.m_ready != ready then
    ({ s with m_ready := ready }, [Effect.readyForCaptureChanged ready])
  else
    (s, [])

/-- Modelled from the spec: `AalCameraService::updateCaptureReady` is not in the
source.  The spec (data model, ReadinessState) says readiness is "true only when
the hardware layer is initialized and no capture is currently consuming the
pipeline", that `capture` "issues the hardware snapshot command, flips readiness
to false" and that the image-ready handler "restarts the hardware preview stream,
flips readiness back to true".  The service recomputes that value and hands it
to `setReady`. -/
def updateCaptureReady (s : State) : State × List Effect :=
  setReady s (s.androidControl && !s.captureInProgress)

/-- Modelled from the spec: the hardware layer's `issueSnapshot()`
(`android_camera_take_snapshot`); from then on a capture is consuming the
pipeline. -/
def android_camera_take_snapshot (s : State) : State × List Effect :=
  ({ s with captureInProgress := true }, [Effect.takeSnapshot])

/-- Modelled from the spec: the hardware layer's `restartPreview()`
(`android_camera_start_preview`); the pipeline is free again. -/
def android_camera_start_preview (s : State) : State × List Effect :=
  ({ s with captureInProgress := false }, [Effect.startPreview])

/-- Modelled from the spec: `AalMetaDataWriterControl::availableMetaData`, the
"enumerable key set" of the metadata collaborator. -/
def availableMetaData (s : State) : List String := QMap.keys s.metaData

/-- Modelled from the spec: `AalMetaDataWriterControl::metaData`, the "per-key
value lookup"; an invalid variant for a key that is not stored. -/
def metaData (s : State) (key : String) : QVariant :=
  (QMap.value s.metaData key).getD QVariant.invalid

/-- Modelled from the spec: `AalMetaDataWriterControl::clearAllMetaData`, the
"clear-all operation" of the metadata collaborator. -/
def clearAllMetaData (s : State) : State × List Effect :=
  ({ s with metaData := [] }, [Effect.clearAllMetaData])

/-! ## Member functions -/

/-- Member function `AalImageCaptureControl::isReadyForCapture` (lines 65-68). -/
def isReadyForCapture (s : State) : Bool := s.m_ready

/-- Member function `AalImageCaptureControl::isCaptureRunning` (lines 141-144). -/
def isCaptureRunning (s : State) : Bool := !QString.isNull s.m_pendingCaptureFile

/-- Text of the error raised by `capture`. -/
def notReadyMessage : String := "Camera not ready to capture"

/-- Member function `AalImageCaptureControl::capture` (lines 70-89). -/
def capture (s : State) (fileName : QString) : Outcome :=
  let s1 := { s with m_lastRequestId := wrapInt32 (s.m_lastRequestId + 1) }
  if !s1.m_ready || !s1.androidControl then
    { ret := some s1.m_lastRequestId
      state := s1
      effects := [Effect.error s1.m_lastRequestId CaptureError.NotReadyError notReadyMessage] }
  else
    let s2 := { s1 with m_targetFileName := fileName }
    let s3 := { s2 with m_captureCancelled := false }
    let r4 := android_camera_take_snapshot s3
    let r5 := updateCaptureReady r4.1
    { ret := some r5.1.m_lastRequestId
      state := r5.1
      effects := r4.2 ++ r5.2 ++ [Effect.createPreview] }

/-- Member function `AalImageCaptureControl::cancelCapture` (lines 91-95). -/
def cancelCapture (s : State) : Outcome :=
  { ret := none
    state := { s with m_captureCancelled := true, m_pendingCaptureFile := none }
    effects := [] }

/-- Member function `AalImageCaptureControl::onPreviewReady` (lines 127-131). -/
def onPreviewReady (s : State) : Outcome :=
  { ret := none
    state := s
    effects := [Effect.imageCaptured s.m_lastRequestId s.preview] }

/-- Member function `AalImageCaptureControl::shutter` (lines 146-153). -/
def shutter (s : State) : Outcome :=
  let playShutterSound := s.playShutterSound.getD true
  { ret := none
    state := s
    effects := (if playShutterSound then [Effect.playSound] else [])
      ++ [Effect.imageExposed s.m_lastRequestId] }

/-- The loop of lines 163-167 followed by line 168: every available key is
inserted with its value, then `CorrectedOrientation`. -/
def copyMetaData (s : State) : List (String × QVariant) :=
  QMap.insert
    ((availableMetaData s).foldl (fun metadata key => QMap.insert metadata key (metaData s key)) [])
    "CorrectedOrientation" (QVariant.int s.correctedOrientation)

/-- Member function `AalImageCaptureControl::saveJpeg` (lines 155-189); `watcher` is the address
returned by `new StringFutureWatcher`. -/
def saveJpeg (s : State) (data : QByteArray) (watcher : Handle) : Outcome :=
  if s.m_captureCancelled then
    { ret := none
      state := { s with m_captureCancelled := false }
      effects := [] }
  else
    let metadata := copyMetaData s
    let r1 := clearAllMetaData s
    let s2 := { r1.1 with m_pendingCaptureFile := none }
    let fileName := s2.m_targetFileName
    let s3 := { s2 with m_targetFileName := none }
    let r4 := if s3.androidControl then android_camera_start_preview s3 else (s3, [])
    let r5 := updateCaptureReady r4.1
    let s6 := { r5.1 with
      m_pendingSaveOperations :=
        QMap.insert r5.1.m_pendingSaveOperations watcher r5.1.m_lastRequestId }
    { ret := none
      state := s6
      effects := r1.2 ++ r4.2 ++ r5.2 ++ [Effect.saveDispatched watcher data metadata fileName] }

/-- Member function `AalImageCaptureControl::onImageFileSaved` (lines 191-208); `watcher` is
`sender()` and `result` is `watcher->result()`. -/
def onImageFileSaved (s : State) (watcher : Handle) (result : QString) : Outcome :=
  if QMap.contains s.m_pendingSaveOperations watcher then
    let requestID := (QMap.value s.m_pendingSaveOperations watcher).getD 0
    let s1 := { s with
      m_pendingSaveOperations := QMap.remove s.m_pendingSaveOperations watcher }
    let fileName := result
    { ret := none
      state := s1
      effects := [Effect.deleteWatcher watcher]
        ++ (if !QString.isEmpty fileName then [Effect.imageSaved requestID fileName] else []) }
  else
    { ret := none, state := s, effects := [] }

/-! ## Sequences of operations -/

/-- Calls into the control, and changes made by its environment. -/
inductive Op where
  | capture (fileName : QString)
  | cancelCapture
  | shutter
  | saveJpeg (data : QByteArray) (watcher : Handle)
  | onImageFileSaved (watcher : Handle) (result : QString)
  | onPreviewReady
  /-- The service calls `setReady(ready)`. -/
  | setReady (ready : Bool)
  /-- The hardware layer becomes available or unavailable. -/
  | setAndroidControl (available : Bool)
  /-- The application stores a metadata value. -/
  | setMetaData (key : String) (value : QVariant)
  deriving DecidableEq, Repr

/-- One operation. -/
def step (s : State) : Op → Outcome
  | Op.capture fileName => capture s fileName
  | Op.cancelCapture => cancelCapture s
  | Op.shutter => shutter s
  | Op.saveJpeg data watcher => saveJpeg s data watcher
  | Op.onImageFileSaved watcher result => onImageFileSaved s watcher result
  | Op.onPreviewReady => onPreviewReady s
  | Op.setReady ready => { ret := none, state := (setReady s ready).1, effects := (setReady s ready).2 }
  | Op.setAndroidControl available =>
      { ret := none, state := { s with androidControl := available }, effects := [] }
  | Op.setMetaData key value =>
      { ret := none, state := { s with metaData := QMap.insert s.metaData key value }, effects := [] }

/-- State after a sequence of operations. -/
def runState (s : State) : List Op → State
  | [] => s
  | op :: ops => runState (step s op).state ops

/-- Effects of a sequence of operations, in order. -/
def runEffects (s : State) : List Op → List Effect
  | [] => []
  | op :: ops => (step s op).effects ++ runEffects (step s op).state ops

/-- Values returned by the `capture` calls of a sequence, in order. -/
def captureIds (s : State) : List Op → List Int
  | [] => []
  | Op.capture fileName :: ops =>
      (capture s fileName).ret.toList ++ captureIds (capture s fileName).state ops
  | Op.cancelCapture :: ops => captureIds (step s Op.cancelCapture).state ops
  | Op.shutter :: ops => captureIds (step s Op.shutter).state ops
  | Op.saveJpeg data watcher :: ops => captureIds (step s (Op.saveJpeg data watcher)).state ops
  | Op.onImageFileSaved watcher result :: ops =>
      captureIds (step s (Op.onImageFileSaved watcher result)).state ops
  | Op.onPreviewReady :: ops => captureIds (step s Op.onPreviewReady).state ops
  | Op.setReady ready :: ops => captureIds (step s (Op.setReady ready)).state ops
  | Op.setAndroidControl available :: ops =>
      captureIds (step s (Op.setAndroidControl available)).state ops
  | Op.setMetaData key value :: ops => captureIds (step s (Op.setMetaData key value)).state ops

/-- Number of `capture` calls in a sequence. -/
def captureCount : List Op → Nat
  | [] => 0
  | Op.capture _ :: ops => captureCount ops + 1
  | _ :: ops => captureCount ops

/-- Recognises the signal `imageSaved`. -/
def isImageSaved : Effect → Bool
  | Effect.imageSaved _ _ => true
  | _ => false

/-- Recognises the signal `imageExposed`. -/
def isImageExposed : Effect → Bool
  | Effect.imageExposed _ => true
  | _ => false

/-- Recognises the signal `error`. -/
def isError : Effect → Bool
  | Effect.error _ _ _ => true
  | _ => false

/-- Recognises a dispatched save. -/
def isSaveDispatched : Effect → Bool
  | Effect.saveDispatched _ _ _ _ => true
  | _ => false

/-- A ready coordinator right after construction: the service has called
`setReady(true)` and the hardware layer is available. -/
def readyState : State :=
  (setReady (construct none true [] 0 0) true).1

/-- A coordinator whose request counter has reached the largest `int`. -/
def saturatedState : State :=
  { readyState with m_lastRequestId := 2147483647 }

/-- A successful capture whose image-ready event is preceded by a second
`capture` call, which is rejected because the first one is still in flight. -/
def rejectedCaptureScenario : List Op :=
  [Op.capture (some "a.jpg"), Op.shutter, Op.capture (some "b.jpg"),
   Op.saveJpeg [255, 216] 100, Op.onImageFileSaved 100 (some "/pictures/a.jpg")]

/-- A successful capture cancelled between the shutter event and the
image-ready event. -/
def cancelledScenario : List Op :=
  [Op.capture (some "a.jpg"), Op.shutter, Op.cancelCapture, Op.saveJpeg [255, 216] 100]

/-- A state whose metadata store itself has an entry under the key
`CorrectedOrientation`, different from the corrected orientation the metadata
control reports. -/
def orientationKeyState : State :=
  { readyState with
    metaData := [("CorrectedOrientation", QVariant.int 5), ("GPSLatitude", QVariant.string "50.1")]
    correctedOrientation := 90 }

/-- Operations that may be interleaved with the steps of one capture cycle:
everything except `capture`, the shutter event, the image-ready event and save
completions. -/
def Op.isBackground : Op → Bool
  | Op.cancelCapture => true
  | Op.onPreviewReady => true
  | Op.setReady _ => true
  | Op.setAndroidControl _ => true
  | Op.setMetaData _ _ => true
  | _ => false

/-- Recognises a call of `cancelCapture`. -/
def isCancelCapture : Op → Bool
  | Op.cancelCapture => true
  | _ => false

/-- The signals `imageExposed` and `imageSaved`. -/
def isLifecycle (e : Effect) : Bool := isImageExposed e || isImageSaved e

/-- One capture cycle up to and including the image-ready event: `capture`,
background operations, the shutter event, background operations, the image-ready
event, background operations. -/
def captureCycle (name : QString) (o1 : List Op) (o2 : List Op) (d : QByteArray) (w : Handle)
    (o3 : List Op) : List Op :=
  [Op.capture name] ++ o1 ++ [Op.shutter] ++ o2 ++ [Op.saveJpeg d w] ++ o3

/-! ## Lemmas on association lists -/

theorem QMap.contains_eq_isSome {κ ν : Type} [DecidableEq κ] (m : List (κ × ν)) (k : κ) :
    QMap.contains m k = (QMap.value m k).isSome := by
  induction m with
  | nil => rfl
  | cons e m ih =>
    by_cases h : e.1 = k
    · simp [QMap.contains, QMap.value, h]
    · simp only [QMap.contains] at ih
      simp [QMap.contains, QMap.value, h, ih]

theorem QMap.value_remove_self {κ ν : Type} [DecidableEq κ] (m : List (κ × ν)) (k : κ) :
    QMap.value (QMap.remove m k) k = none := by
  induction m with
  | nil => rfl
  | cons e m ih =>
    by_cases h : e.1 = k
    · simpa [QMap.remove, List.filter, h] using ih
    · simp only [QMap.remove] at ih
      simp [QMap.remove, List.filter, h, QMap.value, ih]

theorem QMap.value_remove_ne {κ ν : Type} [DecidableEq κ] (m : List (κ × ν)) (k k' : κ)
    (hne : k' ≠ k) : QMap.value (QMap.remove m k) k' = QMap.value m k' := by
  induction m with
  | nil => rfl
  | cons e m ih =>
    simp only [QMap.remove] at ih
    by_cases h : e.1 = k
    · have h' : ¬ e.1 = k' := fun h2 => hne (h2.symm.trans h)
      have hf : (!decide (e.1 = k)) = false := by simp [h]
      simp only [QMap.remove, List.filter_cons, hf, QMap.value, if_neg h']
      simpa using ih
    · have hf : (!decide (e.1 = k)) = true := by simp [h]
      simp only [QMap.remove, List.filter_cons, hf, QMap.value]
      by_cases h2 : e.1 = k'
      · simp [h2]
      · simpa [h2] using ih

theorem QMap.contains_remove_self {κ ν : Type} [DecidableEq κ] (m : List (κ × ν)) (k : κ) :
    QMap.contains (QMap.remove m k) k = false := by
  rw [QMap.contains_eq_isSome, QMap.value_remove_self]; rfl

theorem QMap.value_insert_self {κ ν : Type} [DecidableEq κ] (m : List (κ × ν)) (k : κ) (v : ν) :
    QMap.value (QMap.insert m k v) k = some v := by
  simp [QMap.insert, QMap.value]

theorem QMap.value_insert_ne {κ ν : Type} [DecidableEq κ] (m : List (κ × ν)) (k k' : κ) (v : ν)
    (hne : k' ≠ k) : QMap.value (QMap.insert m k v) k' = QMap.value m k' := by
  have h : ¬ k = k' := fun h => hne h.symm
  simp [QMap.insert, QMap.value, h, QMap.value_remove_ne m k k' hne]

theorem QMap.remove_of_not_contains {κ ν : Type} [DecidableEq κ] (m : List (κ × ν)) (k : κ)
    (h : QMap.contains m k = false) : QMap.remove m k = m := by
  induction m with
  | nil => rfl
  | cons e m ih =>
    simp only [QMap.contains, List.any_cons, Bool.or_eq_false_iff, decide_eq_false_iff_not] at h
    have ih' := ih (by simpa [QMap.contains] using h.2)
    simp only [QMap.remove] at ih'
    simp [QMap.remove, List.filter, h.1, ih']

/-! ## capture -/

/-- C2: when readiness is false or the hardware layer is unavailable, `capture`
returns the incremented counter, its only effect is one `error` signal carrying
that id and the kind `NotReadyError` (so no snapshot command and no preview
request), and the state afterwards is the state before with only the request
counter changed: target name, cancelled flag, readiness and the pending saves are
what they were. -/
theorem capture_not_ready (s : State) (fileName : QString)
    (h : s.m_ready = false ∨ s.androidControl = false) :
    (capture s fileName).ret = some (wrapInt32 (s.m_lastRequestId + 1)) ∧
    (capture s fileName).effects =
      [Effect.error (wrapInt32 (s.m_lastRequestId + 1)) CaptureError.NotReadyError
        notReadyMessage] ∧
    Effect.takeSnapshot ∉ (capture s fileName).effects ∧
    Effect.createPreview ∉ (capture s fileName).effects ∧
    (capture s fileName).state =
      { s with m_lastRequestId := wrapInt32 (s.m_lastRequestId + 1) } ∧
    (capture s fileName).state.m_targetFileName = s.m_targetFileName ∧
    (capture s fileName).state.m_captureCancelled = s.m_captureCancelled ∧
    (capture s fileName).state.m_ready = s.m_ready ∧
    (capture s fileName).state.m_pendingSaveOperations = s.m_pendingSaveOperations := by
  have hc : (!s.m_ready || !s.androidControl) = true := by
    rcases h with h | h <;> simp [h]
  simp [capture, hc]

/-- Instance of `capture_not_ready`: a freshly constructed coordinator is not
ready, so the first `capture` fails with id 1. -/
theorem capture_not_ready_witness :
    ((construct none true [] 0 0).m_ready = false ∨
        (construct none true [] 0 0).androidControl = false) ∧
    (capture (construct none true [] 0 0) (some "a.jpg")).effects =
      [Effect.error 1 CaptureError.NotReadyError notReadyMessage] :=
  ⟨Or.inl rfl, (capture_not_ready (construct none true [] 0 0) (some "a.jpg") (Or.inl rfl)).2.1⟩

/-- C8: when readiness is true and the hardware layer is available, `capture`
emits no `error` signal, stores the file name, clears the cancelled flag, issues
exactly one snapshot command and one preview request, and `isReadyForCapture` is
false when it returns. -/
theorem capture_ready (s : State) (fileName : QString)
    (hr : s.m_ready = true) (ha : s.androidControl = true) :
    (capture s fileName).ret = some (wrapInt32 (s.m_lastRequestId + 1)) ∧
    (capture s fileName).effects =
      [Effect.takeSnapshot, Effect.readyForCaptureChanged false, Effect.createPreview] ∧
    (capture s fileName).effects.filter isError = [] ∧
    (capture s fileName).effects.count Effect.takeSnapshot = 1 ∧
    (capture s fileName).effects.count Effect.createPreview = 1 ∧
    (capture s fileName).state.m_targetFileName = fileName ∧
    (capture s fileName).state.m_captureCancelled = false ∧
    isReadyForCapture (capture s fileName).state = false := by
  simp [capture, hr, ha, android_camera_take_snapshot, updateCaptureReady, setReady,
    isReadyForCapture, isError]

/-- Instance of `capture_ready` on a ready coordinator with the cancelled flag
set beforehand. -/
theorem capture_ready_witness :
    ({ readyState with m_captureCancelled := true }).m_ready = true ∧
    ({ readyState with m_captureCancelled := true }).androidControl = true ∧
    (capture { readyState with m_captureCancelled := true } (some "a.jpg")).state.m_captureCancelled
      = false ∧
    isReadyForCapture
      (capture { readyState with m_captureCancelled := true } (some "a.jpg")).state = false :=
  ⟨rfl, rfl,
    (capture_ready { readyState with m_captureCancelled := true } (some "a.jpg") rfl rfl).2.2.2.2.2.2.1,
    (capture_ready { readyState with m_captureCancelled := true } (some "a.jpg") rfl rfl).2.2.2.2.2.2.2⟩

/-! ## onImageFileSaved -/

theorem onImageFileSaved_absent (s : State) (w : Handle) (r : QString)
    (h : QMap.contains s.m_pendingSaveOperations w = false) :
    onImageFileSaved s w r = { ret := none, state := s, effects := [] } := by
  simp [onImageFileSaved, h]

theorem onImageFileSaved_present (s : State) (w : Handle) (r : QString) (i : Int)
    (h : QMap.value s.m_pendingSaveOperations w = some i) :
    onImageFileSaved s w r =
      { ret := none
        state := { s with
          m_pendingSaveOperations := QMap.remove s.m_pendingSaveOperations w }
        effects := [Effect.deleteWatcher w]
          ++ (if !QString.isEmpty r then [Effect.imageSaved i r] else []) } := by
  have hc : QMap.contains s.m_pendingSaveOperations w = true := by
    rw [QMap.contains_eq_isSome, h]; rfl
  simp [onImageFileSaved, hc, h]

theorem onImageFileSaved_imageSaved_le_one (s : State) (w : Handle) (r : QString) :
    ((onImageFileSaved s w r).effects.filter isImageSaved).length ≤ 1 := by
  unfold onImageFileSaved
  split
  · by_cases he : QString.isEmpty r = true <;> simp [he, isImageSaved]
  · simp

/-- C6: running `onImageFileSaved` twice for the same handle, with any two
results, emits at most one `imageSaved` signal in total; and when the handle is
not in `m_pendingSaveOperations` the handler has no effect at all and returns
the state it was given. -/
theorem onImageFileSaved_idempotent (s : State) (w : Handle) (r1 r2 : QString) :
    (((onImageFileSaved s w r1).effects ++
        (onImageFileSaved (onImageFileSaved s w r1).state w r2).effects).filter
          isImageSaved).length ≤ 1 ∧
    (QMap.contains s.m_pendingSaveOperations w = false →
      (onImageFileSaved s w r1).effects = [] ∧ (onImageFileSaved s w r1).state = s) := by
  constructor
  · by_cases hc : QMap.contains s.m_pendingSaveOperations w = true
    · have h2 : QMap.contains (onImageFileSaved s w r1).state.m_pendingSaveOperations w
          = false := by
        simp [onImageFileSaved, hc, QMap.contains_remove_self]
      rw [onImageFileSaved_absent _ w r2 h2]
      simpa using onImageFileSaved_imageSaved_le_one s w r1
    · have hc' : QMap.contains s.m_pendingSaveOperations w = false := by simpa using hc
      rw [onImageFileSaved_absent s w r1 hc']
      simpa using onImageFileSaved_imageSaved_le_one s w r2
  · intro h
    rw [onImageFileSaved_absent s w r1 h]
    exact ⟨rfl, rfl⟩

/-- C7: when `m_pendingSaveOperations` holds entries for two distinct handles
`h1` and `h2`, completing `h1` with any result removes the entry of `h1` and only
that: `h2` is still present with the same id, every handle other than `h1` maps
to what it mapped to before, nothing else in the state changes, and completing
`h2` afterwards with a non-empty path emits `imageSaved` with the id recorded for
`h2`. -/
theorem onImageFileSaved_frame (s : State) (h1 h2 : Handle) (i1 i2 : Int) (r : QString)
    (hne : h1 ≠ h2)
    (e1 : QMap.value s.m_pendingSaveOperations h1 = some i1)
    (e2 : QMap.value s.m_pendingSaveOperations h2 = some i2) :
    QMap.contains (onImageFileSaved s h1 r).state.m_pendingSaveOperations h1 = false ∧
    QMap.contains (onImageFileSaved s h1 r).state.m_pendingSaveOperations h2 = true ∧
    QMap.value (onImageFileSaved s h1 r).state.m_pendingSaveOperations h2 = some i2 ∧
    (∀ h, h ≠ h1 →
      QMap.value (onImageFileSaved s h1 r).state.m_pendingSaveOperations h =
        QMap.value s.m_pendingSaveOperations h) ∧
    (onImageFileSaved s h1 r).state =
      { s with m_pendingSaveOperations :=
          s.m_pendingSaveOperations.filter (fun e => !decide (e.1 = h1)) } ∧
    (∀ p : QString, QString.isEmpty p = false →
      (onImageFileSaved (onImageFileSaved s h1 r).state h2 p).effects =
        [Effect.deleteWatcher h2, Effect.imageSaved i2 p]) := by
  have hv : ∀ h, h ≠ h1 →
      QMap.value (onImageFileSaved s h1 r).state.m_pendingSaveOperations h =
        QMap.value s.m_pendingSaveOperations h := by
    intro h hh
    rw [onImageFileSaved_present s h1 r i1 e1]
    exact QMap.value_remove_ne _ h1 h hh
  have hv2 := hv h2 (fun h => hne h.symm)
  refine ⟨?_, ?_, ?_, hv, ?_, ?_⟩
  · rw [onImageFileSaved_present s h1 r i1 e1]
    exact QMap.contains_remove_self _ h1
  · rw [QMap.contains_eq_isSome, hv2, e2]; rfl
  · rw [hv2, e2]
  · rw [onImageFileSaved_present s h1 r i1 e1]; rfl
  · intro p hp
    rw [onImageFileSaved_present _ h2 p i2 (hv2.trans e2)]
    simp [hp]

/-- Instance of `onImageFileSaved_frame`: two pending saves, for handles 10 and
20 with ids 1 and 2; handle 10 fails (empty result), handle 20 then reports id 2. -/
theorem onImageFileSaved_frame_witness :
    (10 : Handle) ≠ 20 ∧
    QMap.value ({ readyState with m_pendingSaveOperations := [(20, 2), (10, 1)] }
      ).m_pendingSaveOperations 10 = some 1 ∧
    QMap.value ({ readyState with m_pendingSaveOperations := [(20, 2), (10, 1)] }
      ).m_pendingSaveOperations 20 = some 2 ∧
    (onImageFileSaved
        (onImageFileSaved { readyState with m_pendingSaveOperations := [(20, 2), (10, 1)] }
          10 none).state 20 (some "/pictures/b.jpg")).effects =
      [Effect.deleteWatcher 20, Effect.imageSaved 2 (some "/pictures/b.jpg")] :=
  ⟨by decide, rfl, rfl,
    (onImageFileSaved_frame { readyState with m_pendingSaveOperations := [(20, 2), (10, 1)] }
      10 20 1 2 none (by decide) rfl rfl).2.2.2.2.2 (some "/pictures/b.jpg") rfl⟩

/-! ## Request ids -/

theorem wrapInt32_of_inRange (x : Int) (h1 : INT_MIN ≤ x) (h2 : x ≤ INT_MAX) :
    wrapInt32 x = x := by
  unfold wrapInt32
  unfold INT_MIN at h1
  unfold INT_MAX at h2
  omega

theorem setReady_lastRequestId (s : State) (b : Bool) :
    (setReady s b).1.m_lastRequestId = s.m_lastRequestId := by
  unfold setReady
  split <;> rfl

theorem capture_lastRequestId (s : State) (fileName : QString) :
    (capture s fileName).state.m_lastRequestId = wrapInt32 (s.m_lastRequestId + 1) ∧
    (capture s fileName).ret = some (wrapInt32 (s.m_lastRequestId + 1)) := by
  unfold capture
  simp only []
  split
  · exact ⟨rfl, rfl⟩
  · simp [updateCaptureReady, setReady_lastRequestId, android_camera_take_snapshot]

theorem saveJpeg_lastRequestId (s : State) (d : QByteArray) (w : Handle) :
    (saveJpeg s d w).state.m_lastRequestId = s.m_lastRequestId := by
  unfold saveJpeg
  split
  · rfl
  · simp only [updateCaptureReady, setReady_lastRequestId]
    split <;> rfl

theorem onImageFileSaved_lastRequestId (s : State) (w : Handle) (r : QString) :
    (onImageFileSaved s w r).state.m_lastRequestId = s.m_lastRequestId := by
  unfold onImageFileSaved
  split <;> rfl

theorem step_lastRequestId (s : State) (op : Op) (h : ∀ f, op ≠ Op.capture f) :
    (step s op).state.m_lastRequestId = s.m_lastRequestId := by
  cases op with
  | capture f => exact absurd rfl (h f)
  | cancelCapture => rfl
  | shutter => rfl
  | saveJpeg d w => exact saveJpeg_lastRequestId s d w
  | onImageFileSaved w r => exact onImageFileSaved_lastRequestId s w r
  | onPreviewReady => rfl
  | setReady b => exact setReady_lastRequestId s b
  | setAndroidControl b => rfl
  | setMetaData k v => rfl

theorem captureIds_eq (ops : List Op) : ∀ s : State,
    INT_MIN ≤ s.m_lastRequestId → s.m_lastRequestId + captureCount ops ≤ INT_MAX →
    captureIds s ops =
      (List.range (captureCount ops)).map (fun i : Nat => s.m_lastRequestId + (i + 1)) := by
  induction ops with
  | nil => intro s _ _; rfl
  | cons op ops ih =>
    intro s h1 h2
    cases op with
    | capture f =>
      simp only [captureCount, Nat.cast_add, Nat.cast_one] at h2
      have hw : wrapInt32 (s.m_lastRequestId + 1) = s.m_lastRequestId + 1 :=
        wrapInt32_of_inRange _ (by omega) (by have := Int.ofNat_nonneg (captureCount ops); omega)
      have hid := (capture_lastRequestId s f).1
      have hret := (capture_lastRequestId s f).2
      rw [hw] at hid hret
      have ih' := ih (capture s f).state (by rw [hid]; omega) (by rw [hid]; omega)
      simp only [captureIds, captureCount, hret, ih', hid, Option.toList, List.range_succ_eq_map,
        List.map_cons, List.map_map, List.singleton_append]
      congr 1
      apply List.map_congr_left
      intro i _
      simp only [Function.comp, Nat.cast_succ]
      omega
    | cancelCapture => exact ih _ h1 h2
    | shutter => exact ih _ h1 h2
    | saveJpeg d w =>
      have hid := saveJpeg_lastRequestId s d w
      have ih' := ih (step s (Op.saveJpeg d w)).state (by simpa [step, hid] using h1)
        (by simpa [step, hid, captureCount] using h2)
      simpa [captureIds, captureCount, step, hid] using ih'
    | onImageFileSaved w r =>
      have hid := onImageFileSaved_lastRequestId s w r
      have ih' := ih (step s (Op.onImageFileSaved w r)).state (by simpa [step, hid] using h1)
        (by simpa [step, hid, captureCount] using h2)
      simpa [captureIds, captureCount, step, hid] using ih'
    | onPreviewReady => exact ih _ h1 h2
    | setReady b =>
      have hid := setReady_lastRequestId s b
      have ih' := ih (step s (Op.setReady b)).state (by simpa [step, hid] using h1)
        (by simpa [step, hid, captureCount] using h2)
      simpa [captureIds, captureCount, step, hid] using ih'
    | setAndroidControl b => exact ih _ h1 h2
    | setMetaData k v => exact ih _ h1 h2

/-- C1 (amended): for every state whose request counter `c` is an `int` and
every finite sequence of operations containing `k` calls of `capture`, with
`c + k` not above the largest `int`, the calls of `capture` return `c + 1`,
`c + 2`, ..., `c + k` in this order, whatever else is interleaved and whether or
not the calls fail with `NotReadyError`; each returned id is one greater than
the previous one. -/
theorem capture_ids_consecutive (s : State) (ops : List Op)
    (h1 : INT_MIN ≤ s.m_lastRequestId)
    (h2 : s.m_lastRequestId + captureCount ops ≤ INT_MAX) :
    (captureIds s ops).length = captureCount ops ∧
    (∀ i : Nat, i < captureCount ops →
      (captureIds s ops)[i]? = some (s.m_lastRequestId + (i + 1))) ∧
    (∀ i : Nat, i + 1 < captureCount ops → ∀ a b : Int,
      (captureIds s ops)[i]? = some a → (captureIds s ops)[i + 1]? = some b → b = a + 1) := by
  have h := captureIds_eq ops s h1 h2
  have hi : ∀ i : Nat, i < captureCount ops →
      (captureIds s ops)[i]? = some (s.m_lastRequestId + (i + 1)) := by
    intro i hi
    rw [h, List.getElem?_map, List.getElem?_range hi]
    rfl
  refine ⟨by rw [h]; simp, hi, ?_⟩
  intro i hlt a b ha hb
  rw [hi i (by omega)] at ha
  rw [hi (i + 1) hlt] at hb
  simp only [Option.some.injEq] at ha hb
  subst ha
  subst hb
  push_cast
  omega

/-- Instance of `capture_ids_consecutive`: on a freshly constructed coordinator
three calls of `capture`, the first rejected, the second accepted and the third
rejected, return 1, 2 and 3. -/
theorem capture_ids_consecutive_witness :
    INT_MIN ≤ (construct none true [] 0 0).m_lastRequestId ∧
    (captureIds (construct none true [] 0 0)
        [Op.capture (some "a.jpg"), Op.setReady true, Op.capture (some "b.jpg"), Op.shutter,
         Op.capture (some "c.jpg")])[0]? = some 1 ∧
    (captureIds (construct none true [] 0 0)
        [Op.capture (some "a.jpg"), Op.setReady true, Op.capture (some "b.jpg"), Op.shutter,
         Op.capture (some "c.jpg")])[2]? = some 3 :=
  ⟨by decide,
    (capture_ids_consecutive (construct none true [] 0 0)
      [Op.capture (some "a.jpg"), Op.setReady true, Op.capture (some "b.jpg"), Op.shutter,
       Op.capture (some "c.jpg")] (by decide) (by decide)).2.1 0 (by decide),
    (capture_ids_consecutive (construct none true [] 0 0)
      [Op.capture (some "a.jpg"), Op.setReady true, Op.capture (some "b.jpg"), Op.shutter,
       Op.capture (some "c.jpg")] (by decide) (by decide)).2.1 2 (by decide)⟩

/-- C1 as stated fails when the counter is the largest `int`: `capture` then
returns the smallest `int`, not the counter plus one. -/
theorem capture_ids_overflow :
    captureIds saturatedState [Op.capture (some "a.jpg")] = [-2147483648] ∧
    ¬ ((captureIds saturatedState [Op.capture (some "a.jpg")])[0]? =
        some (saturatedState.m_lastRequestId + 1)) := by
  decide

/-- C3: a `capture` call rejected with `NotReadyError` between a successful
`capture` (id 1) and its image-ready event makes the completion of that save emit
`imageSaved` with id 2, the id of the rejected call; the entry recorded for the
handle maps to 2. -/
theorem imageSaved_id_after_rejected_capture :
    captureIds readyState rejectedCaptureScenario = [1, 2] ∧
    runEffects readyState rejectedCaptureScenario =
      [Effect.takeSnapshot, Effect.readyForCaptureChanged false, Effect.createPreview,
       Effect.playSound, Effect.imageExposed 1,
       Effect.error 2 CaptureError.NotReadyError notReadyMessage,
       Effect.clearAllMetaData, Effect.startPreview, Effect.readyForCaptureChanged true,
       Effect.saveDispatched 100 [255, 216] [("CorrectedOrientation", QVariant.int 0)]
         (some "a.jpg"),
       Effect.deleteWatcher 100, Effect.imageSaved 2 (some "/pictures/a.jpg")] ∧
    QMap.value (runState readyState (rejectedCaptureScenario.take 4)).m_pendingSaveOperations 100
      = some 2 := by
  decide

/-- C4: after a successful capture, a shutter event and `cancelCapture`, the
image-ready handler dispatches no save, records no pending save and emits
nothing, but it also returns before readiness is recomputed:
`isReadyForCapture` is still false afterwards. -/
theorem cancelled_saveJpeg_leaves_not_ready :
    captureIds readyState cancelledScenario = [1] ∧
    isReadyForCapture (runState readyState (cancelledScenario.take 3)) = false ∧
    (saveJpeg (runState readyState (cancelledScenario.take 3)) [255, 216] 100).effects = [] ∧
    (runState readyState cancelledScenario).m_pendingSaveOperations = [] ∧
    (runEffects readyState cancelledScenario).filter isImageSaved = [] ∧
    isReadyForCapture (runState readyState cancelledScenario) = false := by
  decide

/-- C5: after a successful `capture("a.jpg")` and after its shutter event, with
no cancellation, `isCaptureRunning` returns false. -/
theorem isCaptureRunning_false_while_pending :
    captureIds readyState [Op.capture (some "a.jpg")] = [1] ∧
    (runState readyState [Op.capture (some "a.jpg")]).m_targetFileName = some "a.jpg" ∧
    isCaptureRunning (runState readyState [Op.capture (some "a.jpg")]) = false ∧
    isCaptureRunning (runState readyState [Op.capture (some "a.jpg"), Op.shutter]) = false := by
  decide

/-! ## saveJpeg -/

theorem foldl_insert_value (f : String → QVariant) (ks : List String) :
    ∀ (acc : List (String × QVariant)) (key : String),
      QMap.value (ks.foldl (fun m k => QMap.insert m k (f k)) acc) key =
        if key ∈ ks then some (f key) else QMap.value acc key := by
  induction ks with
  | nil => intro acc key; simp
  | cons k ks ih =>
    intro acc key
    rw [List.foldl_cons, ih]
    by_cases hk : key = k
    · subst hk
      simp [QMap.value_insert_self]
    · by_cases hm : key ∈ ks
      · simp [hm]
      · simp [hm, hk, QMap.value_insert_ne _ k key _ hk]

theorem copyMetaData_orientation (s : State) :
    QMap.value (copyMetaData s) "CorrectedOrientation" =
      some (QVariant.int s.correctedOrientation) := by
  unfold copyMetaData
  exact QMap.value_insert_self _ _ _

theorem copyMetaData_value (s : State) (key : String) (hk : key ≠ "CorrectedOrientation") :
    QMap.value (copyMetaData s) key =
      if key ∈ availableMetaData s then some (metaData s key) else none := by
  unfold copyMetaData
  rw [QMap.value_insert_ne _ _ _ _ hk, foldl_insert_value]
  rfl

theorem saveJpeg_effects (s : State) (d : QByteArray) (w : Handle)
    (hc : s.m_captureCancelled = false) :
    (saveJpeg s d w).effects =
      [Effect.clearAllMetaData]
        ++ (if s.androidControl then [Effect.startPreview] else [])
        ++ (if s.m_ready != s.androidControl then
              [Effect.readyForCaptureChanged s.androidControl] else [])
        ++ [Effect.saveDispatched w d (copyMetaData s) s.m_targetFileName] := by
  obtain ⟨id, ready, tf, pf, cc, ps, pss, ac, cip, md, co, pv⟩ := s
  simp only at hc
  subst hc
  cases ac <;> cases ready <;> cases cip <;>
    simp [saveJpeg, clearAllMetaData, updateCaptureReady, setReady, android_camera_start_preview]

theorem saveJpeg_state (s : State) (d : QByteArray) (w : Handle)
    (hc : s.m_captureCancelled = false) :
    (saveJpeg s d w).state =
      { s with
        metaData := []
        m_pendingCaptureFile := none
        m_targetFileName := none
        captureInProgress := if s.androidControl then false else s.captureInProgress
        m_ready := s.androidControl
        m_pendingSaveOperations := QMap.insert s.m_pendingSaveOperations w s.m_lastRequestId } := by
  obtain ⟨id, ready, tf, pf, cc, ps, pss, ac, cip, md, co, pv⟩ := s
  simp only at hc
  subst hc
  cases ac <;> cases ready <;> cases cip <;>
    simp [saveJpeg, clearAllMetaData, updateCaptureReady, setReady, android_camera_start_preview]

theorem saveJpeg_cancelled (s : State) (d : QByteArray) (w : Handle)
    (hc : s.m_captureCancelled = true) :
    saveJpeg s d w =
      { ret := none, state := { s with m_captureCancelled := false }, effects := [] } := by
  simp [saveJpeg, hc]

/-- C9 (amended): when the cancelled flag is false, `saveJpeg` dispatches
exactly one save, with the bytes it was given, the stored target file name and
a metadata map that holds, for every key of the metadata store other than
`CorrectedOrientation`, the value the store had for it when the handler started,
and under `CorrectedOrientation` the corrected orientation reported by the
metadata control.  The store is cleared before the dispatch and is empty
afterwards, the target file name is cleared, the new handle maps to the current
request id, every other handle maps to what it did, and for a handle that was
not yet in the mapping exactly one entry is added. -/
theorem saveJpeg_dispatch (s : State) (d : QByteArray) (w : Handle)
    (hc : s.m_captureCancelled = false) :
    (saveJpeg s d w).effects.filter isSaveDispatched =
      [Effect.saveDispatched w d (copyMetaData s) s.m_targetFileName] ∧
    (∀ key ∈ availableMetaData s, key ≠ "CorrectedOrientation" →
      QMap.value (copyMetaData s) key = some (metaData s key)) ∧
    QMap.value (copyMetaData s) "CorrectedOrientation" =
      some (QVariant.int s.correctedOrientation) ∧
    (saveJpeg s d w).effects.head? = some Effect.clearAllMetaData ∧
    (saveJpeg s d w).effects.getLast? =
      some (Effect.saveDispatched w d (copyMetaData s) s.m_targetFileName) ∧
    (saveJpeg s d w).state.metaData = [] ∧
    availableMetaData (saveJpeg s d w).state = [] ∧
    (saveJpeg s d w).state.m_targetFileName = none ∧
    QMap.value (saveJpeg s d w).state.m_pendingSaveOperations w = some s.m_lastRequestId ∧
    (∀ h, h ≠ w → QMap.value (saveJpeg s d w).state.m_pendingSaveOperations h =
      QMap.value s.m_pendingSaveOperations h) ∧
    (QMap.contains s.m_pendingSaveOperations w = false →
      (saveJpeg s d w).state.m_pendingSaveOperations =
        (w, s.m_lastRequestId) :: s.m_pendingSaveOperations) := by
  rw [saveJpeg_effects s d w hc, saveJpeg_state s d w hc]
  refine ⟨?_, ?_, copyMetaData_orientation s, ?_, ?_, rfl, rfl, rfl, ?_, ?_, ?_⟩
  · cases s.androidControl <;> cases s.m_ready <;> simp [isSaveDispatched]
  · intro key hmem hk
    rw [copyMetaData_value s key hk, if_pos hmem]
  · rfl
  · cases s.androidControl <;> cases s.m_ready <;> simp
  · exact QMap.value_insert_self _ _ _
  · intro h hh
    exact QMap.value_insert_ne _ _ _ _ hh
  · intro hn
    simp only [QMap.insert]
    rw [QMap.remove_of_not_contains _ _ hn]

/-- Instance of `saveJpeg_dispatch` on a state whose store holds
`CorrectedOrientation` and `GPSLatitude`. -/
theorem saveJpeg_dispatch_witness :
    orientationKeyState.m_captureCancelled = false ∧
    (saveJpeg orientationKeyState [255, 216] 100).effects.filter isSaveDispatched =
      [Effect.saveDispatched 100 [255, 216] (copyMetaData orientationKeyState)
        orientationKeyState.m_targetFileName] ∧
    QMap.value (copyMetaData orientationKeyState) "GPSLatitude" = some (QVariant.string "50.1") :=
  ⟨rfl, (saveJpeg_dispatch orientationKeyState [255, 216] 100 rfl).1,
    (saveJpeg_dispatch orientationKeyState [255, 216] 100 rfl).2.1 "GPSLatitude"
      (by decide) (by decide)⟩

/-- C9 as stated fails when the store has its own `CorrectedOrientation` entry:
the dispatched map holds the corrected orientation (90) under that key, not the
value the store had for it (5). -/
theorem saveJpeg_overrides_orientation_key :
    orientationKeyState.m_captureCancelled = false ∧
    "CorrectedOrientation" ∈ availableMetaData orientationKeyState ∧
    metaData orientationKeyState "CorrectedOrientation" = QVariant.int 5 ∧
    (saveJpeg orientationKeyState [255, 216] 100).effects.filter isSaveDispatched =
      [Effect.saveDispatched 100 [255, 216]
        [("CorrectedOrientation", QVariant.int 90), ("GPSLatitude", QVariant.string "50.1")]
        none] ∧
    ¬ (∀ key ∈ availableMetaData orientationKeyState,
        QMap.value (copyMetaData orientationKeyState) key =
          some (metaData orientationKeyState key)) := by
  decide

/-! ## One capture cycle -/

theorem capture_ready_effects (s : State) (fileName : QString)
    (hr : s.m_ready = true) (ha : s.androidControl = true) :
    (capture s fileName).effects =
      [Effect.takeSnapshot, Effect.readyForCaptureChanged false, Effect.createPreview] := by
  simp [capture, hr, ha, android_camera_take_snapshot, updateCaptureReady, setReady]

theorem saveJpeg_dispatched_filter (s : State) (d : QByteArray) (w : Handle)
    (hc : s.m_captureCancelled = false) :
    (saveJpeg s d w).effects.filter isSaveDispatched =
      [Effect.saveDispatched w d (copyMetaData s) s.m_targetFileName] := by
  rw [saveJpeg_effects s d w hc]
  cases s.androidControl <;> cases s.m_ready <;> simp [isSaveDispatched]

theorem saveJpeg_pending_value (s : State) (d : QByteArray) (w : Handle)
    (hc : s.m_captureCancelled = false) :
    QMap.value (saveJpeg s d w).state.m_pendingSaveOperations w = some s.m_lastRequestId := by
  rw [saveJpeg_state s d w hc]
  exact QMap.value_insert_self _ _ _

theorem runState_append (o1 o2 : List Op) : ∀ s : State,
    runState s (o1 ++ o2) = runState (runState s o1) o2 := by
  induction o1 with
  | nil => intro s; rfl
  | cons op o1 ih => intro s; exact ih _

theorem runEffects_append (o1 o2 : List Op) : ∀ s : State,
    runEffects s (o1 ++ o2) = runEffects s o1 ++ runEffects (runState s o1) o2 := by
  induction o1 with
  | nil => intro s; rfl
  | cons op o1 ih =>
    intro s
    show (step s op).effects ++ runEffects (step s op).state (o1 ++ o2) =
      ((step s op).effects ++ runEffects (step s op).state o1) ++
        runEffects (runState (step s op).state o1) o2
    rw [ih, List.append_assoc]

theorem step_background (s : State) (op : Op) (hb : Op.isBackground op = true) :
    (step s op).state.m_lastRequestId = s.m_lastRequestId ∧
    (step s op).state.m_pendingSaveOperations = s.m_pendingSaveOperations ∧
    (step s op).state.m_targetFileName = s.m_targetFileName ∧
    (step s op).state.playShutterSound = s.playShutterSound ∧
    (step s op).state.m_captureCancelled = (s.m_captureCancelled || isCancelCapture op) ∧
    (step s op).effects.filter isLifecycle = [] ∧
    (step s op).effects.filter isSaveDispatched = [] := by
  cases op with
  | capture f => simp [Op.isBackground] at hb
  | shutter => simp [Op.isBackground] at hb
  | saveJpeg d w => simp [Op.isBackground] at hb
  | onImageFileSaved w r => simp [Op.isBackground] at hb
  | cancelCapture => simp [step, cancelCapture, isCancelCapture]
  | onPreviewReady =>
    simp [step, onPreviewReady, isCancelCapture, isLifecycle, isImageExposed, isImageSaved,
      isSaveDispatched]
  | setReady b =>
    simp only [step, setReady]
    split <;> simp [isCancelCapture, isLifecycle, isImageExposed, isImageSaved, isSaveDispatched]
  | setAndroidControl b => simp [step, isCancelCapture]
  | setMetaData k v => simp [step, isCancelCapture]

theorem background_run (o : List Op) : ∀ s : State, (∀ op ∈ o, Op.isBackground op = true) →
    (runState s o).m_lastRequestId = s.m_lastRequestId ∧
    (runState s o).m_pendingSaveOperations = s.m_pendingSaveOperations ∧
    (runState s o).m_targetFileName = s.m_targetFileName ∧
    (runState s o).playShutterSound = s.playShutterSound ∧
    (runState s o).m_captureCancelled = (s.m_captureCancelled || o.any isCancelCapture) ∧
    (runEffects s o).filter isLifecycle = [] ∧
    (runEffects s o).filter isSaveDispatched = [] := by
  induction o with
  | nil => intro s _; simp [runState, runEffects]
  | cons op o ih =>
    intro s hb
    obtain ⟨a1, a2, a3, a4, a5, a6, a7⟩ := step_background s op (hb op (List.mem_cons_self _ _))
    obtain ⟨b1, b2, b3, b4, b5, b6, b7⟩ :=
      ih (step s op).state (fun x hx => hb x (List.mem_cons_of_mem _ hx))
    simp only [runState, runEffects, List.filter_append, List.any_cons]
    refine ⟨b1.trans a1, b2.trans a2, b3.trans a3, b4.trans a4, ?_, ?_, ?_⟩
    · rw [b5, a5, Bool.or_assoc]
    · rw [a6, b6]; rfl
    · rw [a7, b7]; rfl

theorem capture_ready_state (s : State) (fileName : QString)
    (hr : s.m_ready = true) (ha : s.androidControl = true) :
    (capture s fileName).state =
      { s with
        m_lastRequestId := wrapInt32 (s.m_lastRequestId + 1)
        m_targetFileName := fileName
        m_captureCancelled := false
        captureInProgress := true
        m_ready := false } := by
  obtain ⟨id, ready, tf, pf, cc, ps, pss, ac, cip, md, co, pv⟩ := s
  simp only at hr ha
  subst hr
  subst ha
  simp [capture, android_camera_take_snapshot, updateCaptureReady, setReady]

theorem any_isCancelCapture (o : List Op) :
    o.any isCancelCapture = true ↔ Op.cancelCapture ∈ o := by
  induction o with
  | nil => simp
  | cons op o ih =>
    cases op <;> simp [isCancelCapture, ih]

theorem shutter_state (s : State) : (shutter s).state = s := rfl

theorem runEffects_cons (s : State) (op : Op) (ops : List Op) :
    runEffects s (op :: ops) = (step s op).effects ++ runEffects (step s op).state ops := rfl

theorem runState_cons (s : State) (op : Op) (ops : List Op) :
    runState s (op :: ops) = runState (step s op).state ops := rfl

theorem runEffects_nil (s : State) : runEffects s [] = [] := rfl

theorem runState_nil (s : State) : runState s [] = s := rfl

theorem captureCycle_eq (name : QString) (o1 o2 : List Op) (d : QByteArray) (w : Handle)
    (o3 : List Op) :
    captureCycle name o1 o2 d w o3 =
      Op.capture name :: (o1 ++ Op.shutter :: (o2 ++ Op.saveJpeg d w :: o3)) := by
  simp [captureCycle]

theorem shutter_lifecycle (s : State) :
    (shutter s).effects.filter isLifecycle = [Effect.imageExposed s.m_lastRequestId] ∧
    (shutter s).effects.filter isSaveDispatched = [] := by
  unfold shutter
  cases s.playShutterSound.getD true <;>
    simp [isLifecycle, isImageExposed, isImageSaved, isSaveDispatched]

theorem saveJpeg_lifecycle (s : State) (d : QByteArray) (w : Handle) :
    (saveJpeg s d w).effects.filter isLifecycle = [] := by
  cases hc : s.m_captureCancelled
  · rw [saveJpeg_effects s d w hc]
    cases s.androidControl <;> cases s.m_ready <;>
      simp [isLifecycle, isImageExposed, isImageSaved]
  · rw [saveJpeg_cancelled s d w hc]
    rfl

/-- C10: a successful `capture` returning id `r`, followed with no other
`capture` call by one shutter event, one image-ready event and (when a save was
dispatched) one completion with a non-empty path, with any background
operations in between.  If `cancelCapture` was not called before the image-ready
event, the `imageExposed`/`imageSaved` signals of the trace are exactly
`imageExposed(r)` followed by `imageSaved(r, path)` and exactly one save is
dispatched; if it was called, they are exactly `imageExposed(r)`, no save is
dispatched and no pending save is recorded. -/
theorem capture_cycle_trace (s : State) (name : QString) (d : QByteArray) (w : Handle)
    (p : QString) (o1 o2 o3 : List Op)
    (hr : s.m_ready = true) (ha : s.androidControl = true)
    (hb : ∀ op ∈ o1 ++ o2 ++ o3, Op.isBackground op = true)
    (hp : QString.isEmpty p = false) :
    (capture s name).ret = some (wrapInt32 (s.m_lastRequestId + 1)) ∧
    (Op.cancelCapture ∉ o1 ++ o2 →
      (runEffects s (captureCycle name o1 o2 d w o3 ++ [Op.onImageFileSaved w p])).filter
          isLifecycle =
        [Effect.imageExposed (wrapInt32 (s.m_lastRequestId + 1)),
         Effect.imageSaved (wrapInt32 (s.m_lastRequestId + 1)) p] ∧
      ∃ md, (runEffects s (captureCycle name o1 o2 d w o3 ++ [Op.onImageFileSaved w p])).filter
          isSaveDispatched = [Effect.saveDispatched w d md name]) ∧
    (Op.cancelCapture ∈ o1 ++ o2 →
      (runEffects s (captureCycle name o1 o2 d w o3)).filter isLifecycle =
        [Effect.imageExposed (wrapInt32 (s.m_lastRequestId + 1))] ∧
      (runEffects s (captureCycle name o1 o2 d w o3)).filter isSaveDispatched = [] ∧
      (runState s (captureCycle name o1 o2 d w o3)).m_pendingSaveOperations =
        s.m_pendingSaveOperations) := by
  have hb1 : ∀ op ∈ o1, Op.isBackground op = true := fun op h => hb op (by simp [h])
  have hb2 : ∀ op ∈ o2, Op.isBackground op = true := fun op h => hb op (by simp [h])
  have hb3 : ∀ op ∈ o3, Op.isBackground op = true := fun op h => hb op (by simp [h])
  have hs1 := capture_ready_state s name hr ha
  have he1 := capture_ready_effects s name hr ha
  have hid : (capture s name).state.m_lastRequestId = wrapInt32 (s.m_lastRequestId + 1) := by
    rw [hs1]
  have hps : (capture s name).state.m_pendingSaveOperations = s.m_pendingSaveOperations := by
    rw [hs1]
  have htf : (capture s name).state.m_targetFileName = name := by rw [hs1]
  have hcf : (capture s name).state.m_captureCancelled = false := by rw [hs1]
  obtain ⟨i1, p1, t1, _, c1, e1, d1⟩ := background_run o1 (capture s name).state hb1
  obtain ⟨i2, p2, t2, _, c2, e2, d2⟩ :=
    background_run o2 (runState (capture s name).state o1) hb2
  have hsh := shutter_lifecycle (runState (capture s name).state o1)
  rw [i1, hid] at hsh
  rw [i1, hid] at i2
  rw [p1, hps] at p2
  rw [t1, htf] at t2
  rw [c1, hcf, Bool.false_or, ← List.any_append] at c2
  refine ⟨(capture_lastRequestId s name).2, ?_, ?_⟩
  · intro hnc
    have hcc : (o1 ++ o2).any isCancelCapture = false := by
      rw [Bool.eq_false_iff]
      exact fun h => hnc ((any_isCancelCapture _).1 h)
    rw [hcc] at c2
    have hsE := saveJpeg_effects _ d w c2
    have hsS := saveJpeg_state _ d w c2
    obtain ⟨i3, p3, _, _, _, e3, d3⟩ :=
      background_run o3 (saveJpeg (runState (runState (capture s name).state o1) o2) d w).state hb3
    have hval : QMap.value
        (runState (saveJpeg (runState (runState (capture s name).state o1) o2) d w).state
          o3).m_pendingSaveOperations w = some (wrapInt32 (s.m_lastRequestId + 1)) := by
      rw [p3, saveJpeg_pending_value _ d w c2, i2]
    have hdone := onImageFileSaved_present _ w p _ hval
    have hdisp := saveJpeg_dispatched_filter _ d w c2
    rw [t2] at hdisp
    have hlife := saveJpeg_lifecycle (runState (runState (capture s name).state o1) o2) d w
    simp only [captureCycle_eq, runEffects_append, runState_append, runEffects_cons,
      runState_cons, runEffects_nil, runState_nil, step, List.filter_append, List.append_nil,
      shutter_state]
    rw [e1, d1, e2, d2, e3, d3, hsh.1, hsh.2, he1, hdone, hdisp, hlife]
    simp [isLifecycle, isImageExposed, isImageSaved, isSaveDispatched, hp]
  · intro hc
    have hcc : (o1 ++ o2).any isCancelCapture = true := (any_isCancelCapture _).2 hc
    rw [hcc] at c2
    have hsC := saveJpeg_cancelled _ d w c2
    obtain ⟨i3, p3, _, _, _, e3, d3⟩ :=
      background_run o3 (saveJpeg (runState (runState (capture s name).state o1) o2) d w).state hb3
    simp only [captureCycle_eq, runEffects_append, runState_append, runEffects_cons,
      runState_cons, runEffects_nil, runState_nil, step, List.filter_append, List.append_nil,
      shutter_state]
    rw [e1, d1, e2, d2, e3, d3, p3, hsh.1, hsh.2, he1, hsC]
    simp [isLifecycle, isImageExposed, isImageSaved, isSaveDispatched, p2]

/-- Instance of `capture_cycle_trace`: `capture("a.jpg")` on a ready coordinator
returns 1, the shutter event emits `imageExposed(1)` and the worker result
`/pictures/a.jpg` yields `imageSaved(1, "/pictures/a.jpg")`; with `cancelCapture`
between the shutter event and the image-ready event only `imageExposed(1)` is
emitted. -/
theorem capture_cycle_trace_witness :
    readyState.m_ready = true ∧ readyState.androidControl = true ∧
    QString.isEmpty (some "/pictures/a.jpg") = false ∧
    (capture readyState (some "a.jpg")).ret = some 1 ∧
    (runEffects readyState
        (captureCycle (some "a.jpg") [] [] [255, 216] 100 [] ++
          [Op.onImageFileSaved 100 (some "/pictures/a.jpg")])).filter isLifecycle =
      [Effect.imageExposed 1, Effect.imageSaved 1 (some "/pictures/a.jpg")] ∧
    (runEffects readyState
        (captureCycle (some "a.jpg") [Op.onPreviewReady] [Op.cancelCapture] [255, 216] 100
          [Op.setReady true])).filter isLifecycle =
      [Effect.imageExposed 1] :=
  ⟨rfl, rfl, rfl,
    (capture_cycle_trace readyState (some "a.jpg") [255, 216] 100 (some "/pictures/a.jpg")
      [] [] [] rfl rfl (by decide) rfl).1,
    ((capture_cycle_trace readyState (some "a.jpg") [255, 216] 100 (some "/pictures/a.jpg")
      [] [] [] rfl rfl (by decide) rfl).2.1 (by decide)).1,
    ((capture_cycle_trace readyState (some "a.jpg") [255, 216] 100 (some "/pictures/a.jpg")
      [Op.onPreviewReady] [Op.cancelCapture] [Op.setReady true] rfl rfl (by decide) rfl).2.2
        (by decide)).1⟩

theorem step_pendingCaptureFile (s : State) (op : Op) (h : s.m_pendingCaptureFile = none) :
    (step s op).state.m_pendingCaptureFile = none := by
  obtain ⟨id, ready, tf, pf, cc, ps, pss, ac, cip, md, co, pv⟩ := s
  simp only at h
  subst h
  cases op with
  | capture f =>
    cases ready <;> cases ac <;>
      simp [step, capture, android_camera_take_snapshot, updateCaptureReady, setReady]
  | cancelCapture => rfl
  | shutter => rfl
  | saveJpeg d w =>
    cases cc <;> cases ready <;> cases ac <;> cases cip <;>
      simp [step, saveJpeg, clearAllMetaData, android_camera_start_preview, updateCaptureReady,
        setReady]
  | onImageFileSaved w r =>
    simp only [step, onImageFileSaved]
    split <;> rfl
  | onPreviewReady => rfl
  | setReady b =>
    simp only [step, setReady]
    split <;> rfl
  | setAndroidControl b => rfl
  | setMetaData k v => rfl

theorem isCaptureRunning_never (ops : List Op) : ∀ s : State,
    s.m_pendingCaptureFile = none → isCaptureRunning (runState s ops) = false := by
  induction ops with
  | nil => intro s h; simp [runState, isCaptureRunning, h, QString.isNull]
  | cons op ops ih => intro s h; exact ih _ (step_pendingCaptureFile s op h)

end AalImageCapture
